import Mathlib

/-!
Verification of the MetricsPulse webhook-ingestion and metrics-recalculation
pipeline against its natural-language specification.

The development shallowly embeds the relevant TypeScript routines:

* the metrics calculation `calculateMetricsFromStripe` and the POST handler of
  the metrics route (source file `src/unnamed/part_006`, which is the richer
  version of `src/src/app/api/metrics/route.ts`), together with the database
  uniqueness constraint `UNIQUE(workspace_id, metric_name, DATE(recorded_at))`
  declared for the `metrics` table in the repository schema
  (`src/unnamed/part_002`);
* the Stripe webhook endpoint `POST` of
  `src/src/app/api/webhooks/stripe/route.ts` (user-agent / content-type /
  signature / body-size guards, in-memory idempotency cache, retry loop with
  exponential backoff).

Numbers that the TypeScript code manipulates as JavaScript numbers are
modelled as rationals (`ℚ`); timestamps (`Date.now()` milliseconds) as
integers.  External effects (Stripe API results, database answers, handler
success or failure) enter the model as explicit parameters, and the model
returns the response value together with the successor state and a trace of
the side effects it performed.
-/

namespace MetricsPulse

/-! ## Stripe data model (the fields read by the MRR loop) -/

/-- `price.recurring` object: only the `interval` field is read. -/
structure PriceRecurring where
  interval : String
deriving DecidableEq, Repr

/-- A Stripe price: `unit_amount` may be `null` (modelled by `none`). -/
structure StripePrice where
  unit_amount : Option Int
  recurring : Option PriceRecurring
deriving DecidableEq, Repr

/-- A subscription line item (`subscription.items.data[i]`). -/
structure SubItem where
  price : Option StripePrice
  quantity : Option Int
deriving DecidableEq, Repr

/-- A Stripe subscription; `items` is `none` when `subscription.items?.data`
is absent. -/
structure StripeSubscription where
  items : Option (List SubItem)
deriving DecidableEq, Repr

/-! ## MRR computation (part_006 lines 440-474)

The loop body is

    if (item.price?.unit_amount && item.price?.recurring?.interval === 'month') {
      const quantity = item.quantity || 1
      mrr += (item.price.unit_amount * quantity) / 100
    }

JavaScript truthiness: `unit_amount` of `0` is falsy and skips the item, and
`item.quantity || 1` turns an explicit quantity of `0` into `1`. -/

/-- Contribution of one line item to the MRR accumulator. -/
def itemMRRContrib (item : SubItem) : ℚ :=
  match item.price with
  | none => 0
  | some p =>
    match p.unit_amount with
    | none => 0
    | some ua =>
      match p.recurring with
      | none => 0
      | some r =>
        if ua ≠ 0 ∧ r.interval = "month" then
          let q : Int := match item.quantity with
            | none => 1
            | some q0 => if q0 = 0 then 1 else q0
          (ua * q : ℚ) / 100
        else 0

/-- The raw MRR accumulated by the nested `for` loops of part_006
(before clamping and rounding). -/
def calcMRR (subs : List StripeSubscription) : ℚ :=
  subs.foldl
    (fun acc sub =>
      match sub.items with
      | none => acc
      | some itemsData => itemsData.foldl (fun a item => a + itemMRRContrib item) acc)
    0

/-- Modelled from the spec wording of C1: contribution of a line item under
the formula "unit_price × quantity (quantity defaulting to 1 when absent),
divided by 100" for monthly items, other intervals contributing nothing.
A line item with no price or no unit price carries no unit_price and
contributes nothing. -/
def specItemContrib (item : SubItem) : ℚ :=
  match item.price with
  | none => 0
  | some p =>
    match p.unit_amount, p.recurring with
    | some ua, some r =>
      if r.interval = "month" then
        let q : Int := match item.quantity with
          | none => 1
          | some q0 => q0
        (ua * q : ℚ) / 100
      else 0
    | _, _ => 0

/-- Modelled from the spec wording of C1: the claimed MRR, written as a sum
over subscriptions of the per-item contributions. -/
def specMRR (subs : List StripeSubscription) : ℚ :=
  (subs.map (fun sub =>
    (((sub.items).getD []).map specItemContrib).sum)).sum

/-- Amended per-item contribution: like `specItemContrib` but the quantity
defaults to 1 both when absent and when it is 0 (JavaScript `|| 1`). -/
def specItemContribAmended (item : SubItem) : ℚ :=
  match item.price with
  | none => 0
  | some p =>
    match p.unit_amount, p.recurring with
    | some ua, some r =>
      if r.interval = "month" then
        let q : Int := match item.quantity with
          | none => 1
          | some q0 => if q0 = 0 then 1 else q0
        (ua * q : ℚ) / 100
      else 0
    | _, _ => 0

/-- The amended claimed MRR for C1. -/
def specMRRAmended (subs : List StripeSubscription) : ℚ :=
  (subs.map (fun sub =>
    (((sub.items).getD []).map specItemContribAmended).sum)).sum

/-! ## Clamping, rounding, churn, LTV (part_006 lines 455-560) -/

/-- Whether the negative-MRR warning is logged (part_006 lines 456-463). -/
def mrrWarningLogged (mrr : ℚ) : Bool :=
  if mrr < 0 then true else false

/-- Clamping of the computed MRR (part_006 lines 456-466): a negative value
is floored to 0, then `mrr = Math.min(mrr, 100000000)`. -/
def clampMRR (mrr : ℚ) : ℚ :=
  let m1 := if mrr < 0 then 0 else mrr
  min m1 100000000

/-- `Math.round(x * 100) / 100` (round to 2 decimal places); JavaScript
`Math.round` rounds half toward +∞, which is Lean's `round`. -/
def round2 (x : ℚ) : ℚ := ((round (x * 100) : ℤ) : ℚ) / 100

/-- `Math.round(x * 10000) / 10000` (round to 4 decimal places). -/
def round4 (x : ℚ) : ℚ := ((round (x * 10000) : ℤ) : ℚ) / 10000

/-- The MRR value placed in the snapshot row (part_006 line 545). -/
def storedMRR (mrr : ℚ) : ℚ := round2 (clampMRR mrr)

/-- LTV computation (part_006 lines 522-539):

    let ltv = 0
    if (churnRate > 0 && churnRate < 1) {
      ltv = mrr / churnRate
      ltv = Math.max(0, Math.min(ltv, 10000000))
    }
-/
def calcLTV (mrr churnRate : ℚ) : ℚ :=
  if 0 < churnRate ∧ churnRate < 1 then
    max 0 (min (mrr / churnRate) 10000000)
  else 0

/-! ## Snapshot persistence (part_006 lines 541-605) and the metrics table

The `metrics` table is declared with
`UNIQUE(workspace_id, metric_name, DATE(recorded_at))` (schema in
part_002).  A multi-row INSERT that violates the constraint fails as a whole
with Postgres error code 23505 and stores nothing; part_006 catches that code
and returns the `metrics` array it had just built. -/

/-- One row of the `metrics` table; `recorded_at` is a millisecond
timestamp. -/
structure MetricRow where
  metric_name : String
  value : ℚ
  workspace_id : String
  recorded_at : Int
deriving DecidableEq, Repr

/-- `DATE(recorded_at)`: the calendar day of a millisecond timestamp. -/
def dayOf (t : Int) : Int := t / 86400000

/-- Whether a candidate row collides with an existing row on
`(workspace_id, metric_name, DATE(recorded_at))`. -/
def rowConflicts (db : List MetricRow) (m : MetricRow) : Bool :=
  db.any (fun r =>
    r.workspace_id == m.workspace_id && r.metric_name == m.metric_name &&
      dayOf r.recorded_at == dayOf m.recorded_at)

/-- Whether inserting `rows` into `db` violates the uniqueness constraint. -/
def insertConflict (db rows : List MetricRow) : Bool :=
  rows.any (rowConflicts db)

/-- The insert of part_006 lines 583-605.  `dbError` models a database
failure other than the uniqueness violation (any other `insertError`), which
part_006 converts into a thrown `DATABASE_ERROR`.  On a 23505 uniqueness
violation the insert is skipped and the just-built `rows` are returned;
otherwise the rows are stored and returned. -/
def storeMetrics (db rows : List MetricRow) (dbError : Bool) :
    List MetricRow × Except String (List MetricRow) :=
  if dbError then (db, Except.error "DATABASE_ERROR")
  else if insertConflict db rows then (db, Except.ok rows)
  else (db ++ rows, Except.ok rows)

/-- The four snapshot rows built by part_006 lines 542-567, all stamped with
the same `recorded_at` and already rounded. -/
def buildMetricRows (wsId : String) (now : Int) (mrr churn ltv active : ℚ) :
    List MetricRow :=
  [ ⟨"mrr", round2 mrr, wsId, now⟩,
    ⟨"churn_rate", round4 churn, wsId, now⟩,
    ⟨"ltv", round2 ltv, wsId, now⟩,
    ⟨"active_customers", active, wsId, now⟩ ]

/-! ## Rate limiting of the recalculation trigger (part_006 lines 274-295) -/

/-- Millisecond length of the rate-limit window (`5 * 60 * 1000`). -/
def RATE_LIMIT_WINDOW_MS : Int := 5 * 60 * 1000

/-- Largest `recorded_at` among a list of rows (the row the query
`order('recorded_at', descending) .limit(1)` returns). -/
def latestRecordedAt (rows : List MetricRow) : Option Int :=
  match rows.map (fun r => r.recorded_at) with
  | [] => none
  | t :: ts => some (ts.foldl max t)

/-- The recent-calculation query of part_006 lines 275-283: rows of the
workspace with `recorded_at >= now - 5 minutes`; `some t` is the
`recorded_at` of the most recent such row, `none` means the window is
clear. -/
def rateLimitRecent (db : List MetricRow) (wsId : String) (now : Int) :
    Option Int :=
  latestRecordedAt
    (db.filter (fun r =>
      r.workspace_id == wsId && decide (now - RATE_LIMIT_WINDOW_MS ≤ r.recorded_at)))

/-- Responses of the metrics POST handler that the C4/C7 claims talk
about. -/
inductive MetricsPostResp where
  | calculatedRecently (lastCalculated : Int)
  | success (metrics : List MetricRow)
  | serverError (msg : String)
deriving DecidableEq, Repr

/-- The POST handler of part_006 (lines 206-348) after authentication and
workspace resolution, which the model abstracts: `wsId` is the caller's
workspace.  The metric values `mrr churn ltv active` stand for the numbers
`calculateMetricsFromStripe` derives from the live Stripe state, and
`dbError` for a non-uniqueness insert failure.  The returned `Bool` records
whether an actual recalculation (Stripe fetch and computation) ran. -/
def metricsPost (db : List MetricRow) (wsId : String) (now : Int)
    (mrr churn ltv active : ℚ) (dbError : Bool) :
    MetricsPostResp × List MetricRow × Bool :=
  match rateLimitRecent db wsId now with
  | some t => (.calculatedRecently t, db, false)
  | none =>
    let rows := buildMetricRows wsId now mrr churn ltv active
    let out := storeMetrics db rows dbError
    match out.2 with
    | Except.ok returned => (.success returned, out.1, true)
    | Except.error e => (.serverError e, out.1, true)

/-! ## Webhook endpoint (src/src/app/api/webhooks/stripe/route.ts)

The endpoint state is the in-memory idempotency map
`processedEvents : Map<string, number>` from event id to last-seen
timestamp.  The model threads it as an association list, answers with the
HTTP status and the exact JSON field list of each `NextResponse.json` call,
and records a trace of the externally visible steps (signature verification,
idempotency lookup and record, handler attempts). -/

/-- JSON scalar values occurring in the endpoint's response bodies. -/
inductive Jv where
  | s (v : String)
  | i (v : Int)
  | b (v : Bool)
deriving DecidableEq, Repr

/-- An HTTP response: status code plus the JSON object's fields in order. -/
structure HttpResp where
  status : Nat
  fields : List (String × Jv)
deriving DecidableEq, Repr

/-- Observable steps of one webhook delivery, in execution order. -/
inductive WebhookEff where
  | sigVerify
  | dupCheck (id : String)
  | record (id : String)
  | handlerAttempt (id : String)
deriving DecidableEq, Repr

/-- `string.includes(pattern)` on character lists. -/
def listContainsSub (pat : List Char) : List Char → Bool
  | [] => pat.isEmpty
  | c :: cs => List.isPrefixOf pat (c :: cs) || listContainsSub pat cs

/-- JavaScript `s.includes(pat)`. -/
def strIncludes (s pat : String) : Bool :=
  listContainsSub pat.toList s.toList

/-- `JSON Map.get`: value of the first entry with the given key. -/
def mapGet (m : List (String × Int)) (k : String) : Option Int :=
  match m.find? (fun p => p.1 == k) with
  | some p => some p.2
  | none => none

/-- JavaScript `Map.set`: overwrite the entry if the key is present,
append otherwise. -/
def mapSet (m : List (String × Int)) (k : String) (v : Int) :
    List (String × Int) :=
  if m.any (fun p => p.1 == k) then
    m.map (fun p => if p.1 == k then (p.1, v) else p)
  else m ++ [(k, v)]

/-- Idempotency window: `24 * 60 * 60 * 1000` milliseconds. -/
def WEBHOOK_IDEMPOTENCY_WINDOW : Int := 24 * 60 * 60 * 1000

/-- Processing budget (`MAX_PROCESSING_TIME`), milliseconds. -/
def MAX_PROCESSING_TIME : Int := 30000

/-- `MAX_RETRY_ATTEMPTS`. -/
def MAX_RETRY_ATTEMPTS : Nat := 3

/-- The duplicate test of route.ts lines 80-84:
`lastProcessed && (Date.now() - lastProcessed) < WEBHOOK_IDEMPOTENCY_WINDOW`
(a stored timestamp of 0 is falsy in JavaScript). -/
def isDup (cache : List (String × Int)) (id : String) (now : Int) : Bool :=
  match mapGet cache id with
  | some t => t != 0 && decide (now - t < WEBHOOK_IDEMPOTENCY_WINDOW)
  | none => false

/-- Record the event id, then the periodic compaction of lines 86-96:
when the map holds more than 1000 entries, drop every entry older than the
window. -/
def recordAndCleanup (cache : List (String × Int)) (id : String) (now : Int) :
    List (String × Int) :=
  let cache1 := mapSet cache id now
  if 1000 < cache1.length then
    cache1.filter (fun p => !(decide (p.2 < now - WEBHOOK_IDEMPOTENCY_WINDOW)))
  else cache1

/-- A parsed Stripe event as far as the endpoint reads it;
`dataObjectPresent` is the line 117 check `event.data && event.data.object`. -/
structure StripeEvent where
  id : String
  type : String
  dataObjectPresent : Bool
deriving DecidableEq, Repr

/-- An inbound webhook delivery.  `body = none` models `request.text()`
throwing; `event = none` models `stripe.webhooks.constructEvent` throwing
(invalid signature); `elapsed` is `Date.now() - startTime` at the line 123
timeout check and `procTime` the processing time reported in the success
body. -/
structure WebhookReq where
  method : String
  userAgent : Option String
  contentType : Option String
  sig : Option String
  body : Option String
  event : Option StripeEvent
  elapsed : Int
  procTime : Int
deriving DecidableEq, Repr

/-- Response of route.ts lines 139-144 (successful processing). -/
def processedResp (eventId eventType : String) (procTime : Int) : HttpResp :=
  ⟨200, [("received", Jv.b true), ("eventId", Jv.s eventId),
         ("eventType", Jv.s eventType), ("processingTime", Jv.i procTime)]⟩

/-- Response of route.ts lines 159-164 (retries exhausted). -/
def processingFailedResp (eventId : String) : HttpResp :=
  ⟨200, [("received", Jv.b true), ("eventId", Jv.s eventId),
         ("status", Jv.s "processing_failed"),
         ("error", Jv.s "Failed to process event after retries")]⟩

/-- Response of route.ts line 83 (duplicate delivery). -/
def duplicateResp : HttpResp :=
  ⟨200, [("received", Jv.b true), ("status", Jv.s "duplicate")]⟩

/-- Response of lines 26-31 (non-POST method). -/
def methodNotAllowedResp : HttpResp := ⟨405, [("error", Jv.s "Method not allowed")]⟩

/-- Response of lines 40-43 (bad user agent). -/
def unauthorizedResp : HttpResp := ⟨401, [("error", Jv.s "Unauthorized")]⟩

/-- Response of lines 45-48. -/
def invalidContentTypeResp : HttpResp := ⟨400, [("error", Jv.s "Invalid content type")]⟩

/-- Response of lines 50-53. -/
def noSignatureResp : HttpResp := ⟨400, [("error", Jv.s "No signature provided")]⟩

/-- Response of lines 57-62. -/
def invalidBodyResp : HttpResp := ⟨400, [("error", Jv.s "Invalid request body")]⟩

/-- Response of lines 64-68. -/
def tooLargeResp : HttpResp := ⟨413, [("error", Jv.s "Request too large")]⟩

/-- Response of line 113 (signature verification failed). -/
def invalidSignatureResp : HttpResp := ⟨400, [("error", Jv.s "Invalid signature")]⟩

/-- Response of lines 117-120. -/
def invalidStructureResp : HttpResp := ⟨400, [("error", Jv.s "Invalid event structure")]⟩

/-- Response of lines 123-126. -/
def timeoutResp : HttpResp := ⟨408, [("error", Jv.s "Processing timeout")]⟩

/-- Backoff of line 168: `1000 * Math.pow(2, retryCount)` milliseconds,
evaluated after `retryCount` has been incremented. -/
def retryDelayMs (retryCount : Nat) : Int := 1000 * 2 ^ retryCount

/-- One unrolling of the `while (retryCount < MAX_RETRY_ATTEMPTS)` loop of
lines 131-170, starting at `retryCount = rc` with `fuel` iterations left
(`fuel = MAX_RETRY_ATTEMPTS - rc`; the fuel-0 fallback is unreachable at
that instantiation because every iteration either returns or raises
`retryCount` to the bound).  `succeeds k` tells whether the call to
`processWebhookEvent` made with `retryCount = k` succeeds.  Returns the
response, the number of attempts made, and the backoff delays awaited, in
order. -/
def retryFrom (succeeds : Nat → Bool) (eventId eventType : String)
    (procTime : Int) : Nat → Nat → HttpResp × Nat × List Int
  | _, 0 => (processingFailedResp eventId, 0, [])
  | rc, fuel + 1 =>
    if succeeds rc then (processedResp eventId eventType procTime, 1, [])
    else if MAX_RETRY_ATTEMPTS ≤ rc + 1 then (processingFailedResp eventId, 1, [])
    else
      let rest := retryFrom succeeds eventId eventType procTime (rc + 1) fuel
      (rest.1, rest.2.1 + 1, retryDelayMs (rc + 1) :: rest.2.2)

/-- The whole retry loop of lines 131-170. -/
def runWebhookRetries (succeeds : Nat → Bool) (eventId eventType : String)
    (procTime : Int) : HttpResp × Nat × List Int :=
  retryFrom succeeds eventId eventType procTime 0 MAX_RETRY_ATTEMPTS

/-- The endpoint from the duplicate check onward (route.ts lines 79-170),
entered once `constructEvent` has produced `ev`. -/
def webhookCore (cache : List (String × Int)) (ev : StripeEvent)
    (elapsed procTime now : Int) (succeeds : Nat → Bool) :
    HttpResp × List (String × Int) × List WebhookEff :=
  if isDup cache ev.id now then
    (duplicateResp, cache, [.sigVerify, .dupCheck ev.id])
  else
    let cache2 := recordAndCleanup cache ev.id now
    if ev.dataObjectPresent = false then
      (invalidStructureResp, cache2, [.sigVerify, .dupCheck ev.id, .record ev.id])
    else if MAX_PROCESSING_TIME < elapsed then
      (timeoutResp, cache2, [.sigVerify, .dupCheck ev.id, .record ev.id])
    else
      let r := runWebhookRetries succeeds ev.id ev.type procTime
      (r.1, cache2,
        [.sigVerify, .dupCheck ev.id, .record ev.id] ++
          List.replicate r.2.1 (.handlerAttempt ev.id))

/-- The webhook POST handler (route.ts lines 19-193): transport guards in
source order, then signature verification, then `webhookCore`. -/
def webhookPost (cache : List (String × Int)) (r : WebhookReq) (now : Int)
    (succeeds : Nat → Bool) :
    HttpResp × List (String × Int) × List WebhookEff :=
  if r.method ≠ "POST" then (methodNotAllowedResp, cache, [])
  else
    match r.userAgent with
    | none => (unauthorizedResp, cache, [])
    | some ua =>
      if strIncludes ua "Stripe/" = false then (unauthorizedResp, cache, [])
      else
        match r.contentType with
        | none => (invalidContentTypeResp, cache, [])
        | some ct =>
          if strIncludes ct "application/json" = false then
            (invalidContentTypeResp, cache, [])
          else
            match r.sig with
            | none => (noSignatureResp, cache, [])
            | some _ =>
              match r.body with
              | none => (invalidBodyResp, cache, [])
              | some b =>
                if 1024 * 1024 < b.length then (tooLargeResp, cache, [])
                else
                  match r.event with
                  | none => (invalidSignatureResp, cache, [.sigVerify])
                  | some ev => webhookCore cache ev r.elapsed r.procTime now succeeds

/-- The transport-level guards all pass (the request looks like a genuine
Stripe delivery). -/
def passesTransport (r : WebhookReq) : Prop :=
  r.method = "POST" ∧
  (∃ ua, r.userAgent = some ua ∧ strIncludes ua "Stripe/" = true) ∧
  (∃ ct, r.contentType = some ct ∧ strIncludes ct "application/json" = true) ∧
  (∃ sg, r.sig = some sg) ∧
  (∃ b, r.body = some b ∧ b.length ≤ 1024 * 1024)

/-- The user agent is absent or lacks the substring "Stripe/". -/
def uaRejected (r : WebhookReq) : Prop :=
  match r.userAgent with
  | none => True
  | some ua => strIncludes ua "Stripe/" = false

/-! ## Concrete inputs used by counterexamples and witnesses -/

/-- The spec's worked MRR example: a monthly item of 1000 cents with
quantity 2 and a yearly item of 500 cents with quantity 1. -/
def mrrExampleSubs : List StripeSubscription :=
  [ ⟨some [⟨some ⟨some 1000, some ⟨"month"⟩⟩, some 2⟩]⟩,
    ⟨some [⟨some ⟨some 500, some ⟨"year"⟩⟩, some 1⟩]⟩ ]

/-- A monthly line item of 1000 cents with an explicit quantity of 0. -/
def mrrQtyZeroSubs : List StripeSubscription :=
  [ ⟨some [⟨some ⟨some 1000, some ⟨"month"⟩⟩, some 0⟩]⟩ ]

/-- A metrics table holding one mrr snapshot of calendar day 0. -/
def c4dbExample : List MetricRow := [⟨"mrr", 5, "ws1", 0⟩]

/-- A parsed event with a well-formed data object. -/
def stripeEventExample : StripeEvent :=
  ⟨"evt_1", "customer.subscription.created", true⟩

/-- A delivery that passes every transport guard and verifies. -/
def stripeReqExample : WebhookReq :=
  { method := "POST", userAgent := some "Stripe/1.0"
    contentType := some "application/json; charset=utf-8"
    sig := some "t=1,v1=abc", body := some "payload"
    event := some stripeEventExample
    elapsed := 5, procTime := 7 }

/-- An idempotency cache that has already seen evt_1 at time 1000. -/
def dupCacheExample : List (String × Int) := [("evt_1", 1000)]

/-- A delivery whose user agent does not contain "Stripe/". -/
def badUAReq : WebhookReq :=
  { method := "POST", userAgent := some "curl/8.5"
    contentType := some "application/json"
    sig := some "t=1,v1=abc", body := some "payload"
    event := some stripeEventExample
    elapsed := 5, procTime := 7 }

/-! ## Helper lemmas -/

lemma mapGet_mapSet (m : List (String × Int)) (k : String) (v : Int) :
    mapGet (mapSet m k v) k = some v := by
  induction m with
  | nil => simp [mapGet, mapSet]
  | cons p rest ih =>
    by_cases hpk : p.1 = k
    · subst hpk
      simp [mapGet, mapSet, List.find?_cons]
    · have hbk : (p.1 == k) = false := by simp [hpk]
      cases hr : rest.any (fun q => q.1 == k) with
      | true =>
        have hany : (p :: rest).any (fun q => q.1 == k) = true := by
          simp [List.any_cons, hr]
        have ihm := ih
        simp only [mapSet, hr, if_true] at ihm
        simp only [mapSet, hany, if_true, List.map_cons, hbk, Bool.false_eq_true,
          if_false]
        simp only [mapGet, List.find?_cons, hbk]
        simpa [mapGet] using ihm
      | false =>
        have hany : (p :: rest).any (fun q => q.1 == k) = false := by
          simp [List.any_cons, hr, hbk]
        have ihm := ih
        rw [mapSet, if_neg (by simp [hr])] at ihm
        rw [mapSet, if_neg (by simp [hany])]
        simp only [List.cons_append]
        simp only [mapGet, List.find?_cons, hbk]
        simpa [mapGet] using ihm

lemma mapGet_filter_mapSet (m : List (String × Int)) (k : String) (v cutoff : Int)
    (hv : ¬ v < cutoff) :
    mapGet ((mapSet m k v).filter (fun p => !decide (p.2 < cutoff))) k = some v := by
  induction m with
  | nil => simp [mapGet, mapSet, List.filter_cons, hv]
  | cons p rest ih =>
    by_cases hpk : p.1 = k
    · subst hpk
      simp [mapGet, mapSet, List.filter_cons, hv, List.find?_cons]
    · have hbk : (p.1 == k) = false := by simp [hpk]
      cases hr : rest.any (fun q => q.1 == k) with
      | true =>
        have hany : (p :: rest).any (fun q => q.1 == k) = true := by
          simp [List.any_cons, hr]
        have ihm := ih
        rw [mapSet, if_pos (by simp [hr])] at ihm
        rw [mapSet, if_pos (by simp [hany])]
        simp only [List.map_cons, hbk, Bool.false_eq_true, if_false]
        by_cases hp2 : p.2 < cutoff
        · rw [List.filter_cons, if_neg (by simp [hp2])]
          exact ihm
        · rw [List.filter_cons, if_pos (by simp [hp2])]
          simp only [mapGet, List.find?_cons, hbk]
          simpa [mapGet] using ihm
      | false =>
        have hany : (p :: rest).any (fun q => q.1 == k) = false := by
          simp [List.any_cons, hr, hbk]
        have ihm := ih
        rw [mapSet, if_neg (by simp [hr])] at ihm
        rw [mapSet, if_neg (by simp [hany])]
        simp only [List.cons_append]
        by_cases hp2 : p.2 < cutoff
        · rw [List.filter_cons, if_neg (by simp [hp2])]
          exact ihm
        · rw [List.filter_cons, if_pos (by simp [hp2])]
          simp only [mapGet, List.find?_cons, hbk]
          simpa [mapGet] using ihm

lemma mapGet_recordAndCleanup (m : List (String × Int)) (k : String) (now : Int) :
    mapGet (recordAndCleanup m k now) k = some now := by
  by_cases h : 1000 < (mapSet m k now).length
  · simp only [recordAndCleanup, h, if_true]
    exact mapGet_filter_mapSet m k now (now - WEBHOOK_IDEMPOTENCY_WINDOW)
      (by simp [WEBHOOK_IDEMPOTENCY_WINDOW])
  · simp only [recordAndCleanup, h, if_false]
    exact mapGet_mapSet m k now

lemma isDup_after_record (m : List (String × Int)) (k : String) (now0 now1 : Int)
    (h0 : now0 ≠ 0) (hw : now1 - now0 < WEBHOOK_IDEMPOTENCY_WINDOW) :
    isDup (recordAndCleanup m k now0) k now1 = true := by
  unfold isDup
  rw [mapGet_recordAndCleanup]
  simp [h0, hw]

lemma retryFrom_attempts_le (s : Nat → Bool) (eid ety : String) (pt : Int) :
    ∀ (fuel rc : Nat), (retryFrom s eid ety pt rc fuel).2.1 ≤ fuel := by
  intro fuel
  induction fuel with
  | zero => intro rc; simp [retryFrom]
  | succ n ih =>
    intro rc
    unfold retryFrom
    by_cases h1 : s rc = true
    · simp [h1]
    · simp only [h1, Bool.false_eq_true, if_false]
      by_cases h2 : MAX_RETRY_ATTEMPTS ≤ rc + 1
      · simp [h2]
      · simp only [h2, if_false]
        have := ih (rc + 1)
        omega

lemma retryFrom_attempts_pos (s : Nat → Bool) (eid ety : String) (pt : Int)
    (fuel rc : Nat) (h : 0 < fuel) :
    0 < (retryFrom s eid ety pt rc fuel).2.1 := by
  cases fuel with
  | zero => omega
  | succ n =>
    unfold retryFrom
    by_cases h1 : s rc = true
    · simp [h1]
    · simp only [h1, Bool.false_eq_true, if_false]
      by_cases h2 : MAX_RETRY_ATTEMPTS ≤ rc + 1
      · simp [h2]
      · simp [h2]

lemma retryFrom_resp_cases (s : Nat → Bool) (eid ety : String) (pt : Int) :
    ∀ (fuel rc : Nat),
      (retryFrom s eid ety pt rc fuel).1 = processedResp eid ety pt ∨
      (retryFrom s eid ety pt rc fuel).1 = processingFailedResp eid := by
  intro fuel
  induction fuel with
  | zero => intro rc; simp [retryFrom]
  | succ n ih =>
    intro rc
    unfold retryFrom
    by_cases h1 : s rc = true
    · simp [h1]
    · simp only [h1, Bool.false_eq_true, if_false]
      by_cases h2 : MAX_RETRY_ATTEMPTS ≤ rc + 1
      · simp [h2]
      · simpa [h2] using ih (rc + 1)

lemma runWebhookRetries_allFail (eid ety : String) (pt : Int) :
    runWebhookRetries (fun _ => false) eid ety pt
      = (processingFailedResp eid, 3, [2000, 4000]) := by
  rfl

lemma webhookPost_transport (cache : List (String × Int)) (r : WebhookReq)
    (now : Int) (s : Nat → Bool) (ev : StripeEvent)
    (h : passesTransport r) (hev : r.event = some ev) :
    webhookPost cache r now s = webhookCore cache ev r.elapsed r.procTime now s := by
  obtain ⟨hm, ⟨ua, hua, huainc⟩, ⟨ct, hct, hctinc⟩, ⟨sg, hsg⟩, ⟨b, hb, hblen⟩⟩ := h
  unfold webhookPost
  rw [hua, hct, hsg, hb, hev]
  simp [hm, huainc, hctinc, Nat.not_lt.mpr hblen]

lemma webhookCore_cache_of_not_dup (cache : List (String × Int)) (ev : StripeEvent)
    (elapsed procTime now : Int) (s : Nat → Bool)
    (h : isDup cache ev.id now = false) :
    (webhookCore cache ev elapsed procTime now s).2.1
      = recordAndCleanup cache ev.id now := by
  unfold webhookCore
  rw [h]
  simp only [Bool.false_eq_true, if_false]
  by_cases h1 : ev.dataObjectPresent = false
  · simp [h1]
  · simp only [h1, if_false]
    by_cases h2 : MAX_PROCESSING_TIME < elapsed
    · simp [h2]
    · simp [h2]

lemma webhookCore_dup (cache : List (String × Int)) (ev : StripeEvent)
    (elapsed procTime now : Int) (s : Nat → Bool)
    (h : isDup cache ev.id now = true) :
    webhookCore cache ev elapsed procTime now s
      = (duplicateResp, cache, [.sigVerify, .dupCheck ev.id]) := by
  unfold webhookCore
  rw [h]
  simp

lemma webhookCore_trace_shapes (cache : List (String × Int)) (ev : StripeEvent)
    (elapsed procTime now : Int) (s : Nat → Bool) :
    (∃ id, (webhookCore cache ev elapsed procTime now s).2.2
        = [.sigVerify, .dupCheck id]) ∨
    (∃ id, (webhookCore cache ev elapsed procTime now s).2.2
        = [.sigVerify, .dupCheck id, .record id]) ∨
    (∃ id n, 0 < n ∧ (webhookCore cache ev elapsed procTime now s).2.2
        = [.sigVerify, .dupCheck id, .record id]
            ++ List.replicate n (.handlerAttempt id)) := by
  unfold webhookCore
  by_cases h : isDup cache ev.id now = true
  · rw [h]; simp
  · rw [Bool.not_eq_true] at h
    rw [h]
    simp only [Bool.false_eq_true, if_false]
    by_cases h1 : ev.dataObjectPresent = false
    · simp [h1]
    · simp only [h1, if_false]
      by_cases h2 : MAX_PROCESSING_TIME < elapsed
      · simp [h2]
      · simp only [h2, if_false]
        right; right
        refine ⟨ev.id, (runWebhookRetries s ev.id ev.type procTime).2.1, ?_, rfl⟩
        exact retryFrom_attempts_pos s ev.id ev.type procTime _ _ (by norm_num [MAX_RETRY_ATTEMPTS])

lemma webhookPost_trace_shapes (cache : List (String × Int)) (r : WebhookReq)
    (now : Int) (s : Nat → Bool) :
    (webhookPost cache r now s).2.2 = [] ∨
    (webhookPost cache r now s).2.2 = [.sigVerify] ∨
    (∃ id, (webhookPost cache r now s).2.2 = [.sigVerify, .dupCheck id]) ∨
    (∃ id, (webhookPost cache r now s).2.2 = [.sigVerify, .dupCheck id, .record id]) ∨
    (∃ id n, 0 < n ∧ (webhookPost cache r now s).2.2
        = [.sigVerify, .dupCheck id, .record id]
            ++ List.replicate n (.handlerAttempt id)) := by
  unfold webhookPost
  split
  · simp
  · split
    · simp
    · split
      · simp
      · split
        · simp
        · split
          · simp
          · split
            · simp
            · split
              · simp
              · split
                · simp
                · split
                  · simp
                  · rcases webhookCore_trace_shapes cache _ r.elapsed r.procTime now s with h | h | h
                    · right; right; left; exact h
                    · right; right; right; left; exact h
                    · right; right; right; right; exact h

lemma webhookCore_status200 (cache : List (String × Int)) (ev : StripeEvent)
    (elapsed procTime now : Int) (s : Nat → Bool)
    (h200 : (webhookCore cache ev elapsed procTime now s).1.status = 200) :
    (webhookCore cache ev elapsed procTime now s).1 = duplicateResp ∨
    (∃ eid ety pt, (webhookCore cache ev elapsed procTime now s).1
        = processedResp eid ety pt) ∨
    (∃ eid, (webhookCore cache ev elapsed procTime now s).1
        = processingFailedResp eid) := by
  unfold webhookCore at h200 ⊢
  by_cases h : isDup cache ev.id now = true
  · rw [h] at h200 ⊢; simp
  · rw [Bool.not_eq_true] at h
    rw [h] at h200 ⊢
    simp only [Bool.false_eq_true, if_false] at h200 ⊢
    by_cases h1 : ev.dataObjectPresent = false
    · simp [h1, invalidStructureResp] at h200
    · simp only [h1, if_false] at h200 ⊢
      by_cases h2 : MAX_PROCESSING_TIME < elapsed
      · simp [h2, timeoutResp] at h200
      · simp only [h2, if_false] at h200 ⊢
        rcases retryFrom_resp_cases s ev.id ev.type procTime MAX_RETRY_ATTEMPTS 0
          with hc | hc
        · right; left
          exact ⟨ev.id, ev.type, procTime, hc⟩
        · right; right
          exact ⟨ev.id, hc⟩

lemma webhookPost_status200 (cache : List (String × Int)) (r : WebhookReq)
    (now : Int) (s : Nat → Bool) :
    (webhookPost cache r now s).1.status = 200 →
    (webhookPost cache r now s).1 = duplicateResp ∨
    (∃ eid ety pt, (webhookPost cache r now s).1 = processedResp eid ety pt) ∨
    (∃ eid, (webhookPost cache r now s).1 = processingFailedResp eid) := by
  unfold webhookPost
  split
  · intro h200; simp [methodNotAllowedResp] at h200
  · split
    · intro h200; simp [unauthorizedResp] at h200
    · split
      · intro h200; simp [unauthorizedResp] at h200
      · split
        · intro h200; simp [invalidContentTypeResp] at h200
        · split
          · intro h200; simp [invalidContentTypeResp] at h200
          · split
            · intro h200; simp [noSignatureResp] at h200
            · split
              · intro h200; simp [invalidBodyResp] at h200
              · split
                · intro h200; simp [tooLargeResp] at h200
                · split
                  · intro h200; simp [invalidSignatureResp] at h200
                  · exact webhookCore_status200 cache _ r.elapsed r.procTime now s

lemma foldl_add_map {α : Type} (f : α → ℚ) (l : List α) (a : ℚ) :
    l.foldl (fun acc x => acc + f x) a = a + (l.map f).sum := by
  induction l generalizing a with
  | nil => simp
  | cons x xs ih => simp [ih, add_assoc]

lemma itemMRRContrib_eq_amended (item : SubItem) :
    itemMRRContrib item = specItemContribAmended item := by
  obtain ⟨pr, qty⟩ := item
  cases pr with
  | none => rfl
  | some p =>
    obtain ⟨ua0, rec0⟩ := p
    cases ua0 with
    | none => cases rec0 <;> rfl
    | some ua =>
      cases rec0 with
      | none => rfl
      | some r =>
        simp only [itemMRRContrib, specItemContribAmended]
        by_cases hmon : r.interval = "month"
        · by_cases hz : ua = 0
          · subst hz; simp [hmon]
          · simp [hmon, hz]
        · simp [hmon]

lemma calcMRR_foldl_general (subs : List StripeSubscription) (a : ℚ) :
    subs.foldl
      (fun acc sub =>
        match sub.items with
        | none => acc
        | some itemsData =>
          itemsData.foldl (fun x item => x + itemMRRContrib item) acc) a
    = a + (subs.map (fun sub =>
        (((sub.items).getD []).map specItemContribAmended).sum)).sum := by
  induction subs generalizing a with
  | nil => simp
  | cons sub rest ih =>
    simp only [List.foldl_cons, List.map_cons, List.sum_cons]
    cases h : sub.items with
    | none =>
      simp only [h, Option.getD_none, List.map_nil, List.sum_nil]
      rw [ih a]
      ring
    | some itemsData =>
      simp only [h, Option.getD_some]
      rw [ih, foldl_add_map]
      rw [List.map_congr_left (fun x _ => itemMRRContrib_eq_amended x)]
      ring

lemma calcMRR_eq_specMRRAmended (subs : List StripeSubscription) :
    calcMRR subs = specMRRAmended subs := by
  unfold calcMRR specMRRAmended
  rw [calcMRR_foldl_general]
  ring

lemma rateLimitRecent_none_iff (db : List MetricRow) (wsId : String) (now : Int) :
    rateLimitRecent db wsId now = none ↔
    db.filter (fun r => r.workspace_id == wsId &&
      decide (now - RATE_LIMIT_WINDOW_MS ≤ r.recorded_at)) = [] := by
  unfold rateLimitRecent latestRecordedAt
  cases hf : db.filter (fun r => r.workspace_id == wsId &&
      decide (now - RATE_LIMIT_WINDOW_MS ≤ r.recorded_at)) with
  | nil => simp
  | cons a l => simp

lemma round2_nonneg (x : ℚ) (h : 0 ≤ x) : 0 ≤ round2 x := by
  unfold round2
  have h1 : (0 : ℤ) ≤ round (x * 100) := by
    have h2 : round (0 : ℚ) ≤ round (x * 100) := by
      rw [round_eq, round_eq]
      exact Int.floor_le_floor (by linarith)
    simpa using h2
  have h3 : (0 : ℚ) ≤ ((round (x * 100) : ℤ) : ℚ) := by exact_mod_cast h1
  positivity

lemma round2_le_hundred_million (x : ℚ) (h : x ≤ 100000000) :
    round2 x ≤ 100000000 := by
  unfold round2
  have h1 : round (x * 100) ≤ round ((10000000000 : ℚ)) := by
    rw [round_eq, round_eq]
    exact Int.floor_le_floor (by linarith)
  have h2 : round ((10000000000 : ℚ)) = 10000000000 := by
    exact_mod_cast round_ofNat 10000000000
  rw [div_le_iff₀ (by norm_num : (0 : ℚ) < 100)]
  have h3 : ((round (x * 100) : ℤ) : ℚ) ≤ ((10000000000 : ℤ) : ℚ) := by
    exact_mod_cast h1.trans_eq h2
  calc ((round (x * 100) : ℤ) : ℚ) ≤ ((10000000000 : ℤ) : ℚ) := h3
    _ = 100000000 * 100 := by norm_num

lemma clampMRR_mem (x : ℚ) : 0 ≤ clampMRR x ∧ clampMRR x ≤ 100000000 := by
  unfold clampMRR
  constructor
  · apply le_min
    · by_cases h : x < 0
      · simp [h]
      · simp [h]; linarith [not_lt.mp h]
    · norm_num
  · exact min_le_right _ _

/-! ## The claims -/

/-- C1 counterexample: the single monthly line item with unit price 1000 cents and an explicit quantity of 0 yields an MRR of 10 in the code (JavaScript `item.quantity || 1` turns the explicit 0 into 1) while the claimed formula, with quantity defaulting to 1 only when absent, yields 0. -/
theorem C1_counterexample :
    calcMRR mrrQtyZeroSubs = 10 ∧ specMRR mrrQtyZeroSubs = 0 ∧
    calcMRR mrrQtyZeroSubs ≠ specMRR mrrQtyZeroSubs := by
  have h10 : calcMRR mrrQtyZeroSubs = 10 := by
    norm_num [calcMRR, mrrQtyZeroSubs, itemMRRContrib]
  have h0 : specMRR mrrQtyZeroSubs = 0 := by
    norm_num [specMRR, mrrQtyZeroSubs, specItemContrib]
  exact ⟨h10, h0, by rw [h10, h0]; norm_num⟩

/-- C1 (amended): the computed MRR equals the sum over monthly line items of unit_price times quantity divided by 100, where quantity defaults to 1 when absent or when it equals 0 (JavaScript falsiness); on the spec's worked example both the code and the original spec formula give 20. -/
theorem C1_mrr_amended :
    (∀ subs : List StripeSubscription, calcMRR subs = specMRRAmended subs) ∧
    calcMRR mrrExampleSubs = 20 ∧ specMRR mrrExampleSubs = 20 := by
  refine ⟨calcMRR_eq_specMRRAmended, ?_, ?_⟩
  · norm_num [calcMRR, mrrExampleSubs, itemMRRContrib]
    decide
  · norm_num [specMRR, mrrExampleSubs, specItemContrib]
    decide

/-- C2: a second delivery of the same event id within 24 hours of the first being recorded returns the 200 duplicate response, leaves the idempotency cache unchanged, and its trace stops at the duplicate lookup: no handler attempt runs, hence no snapshot write can happen for that delivery. -/
theorem C2_duplicate_no_side_effects
    (cache : List (String × Int)) (r1 r2 : WebhookReq) (ev1 ev2 : StripeEvent)
    (now0 now1 : Int) (s1 s2 : Nat → Bool)
    (h1 : passesTransport r1) (hev1 : r1.event = some ev1)
    (h2 : passesTransport r2) (hev2 : r2.event = some ev2)
    (hid : ev2.id = ev1.id)
    (hfresh : isDup cache ev1.id now0 = false) (hnz : now0 ≠ 0)
    (hwin : now1 - now0 < WEBHOOK_IDEMPOTENCY_WINDOW) :
    webhookPost ((webhookPost cache r1 now0 s1).2.1) r2 now1 s2
      = (duplicateResp, (webhookPost cache r1 now0 s1).2.1,
         [WebhookEff.sigVerify, WebhookEff.dupCheck ev2.id]) := by
  have hc1 : (webhookPost cache r1 now0 s1).2.1
      = recordAndCleanup cache ev1.id now0 := by
    rw [webhookPost_transport cache r1 now0 s1 ev1 h1 hev1]
    exact webhookCore_cache_of_not_dup cache ev1 r1.elapsed r1.procTime now0 s1 hfresh
  rw [webhookPost_transport _ r2 now1 s2 ev2 h2 hev2]
  have hdup : isDup ((webhookPost cache r1 now0 s1).2.1) ev2.id now1 = true := by
    rw [hc1, hid]
    exact isDup_after_record cache ev1.id now0 now1 hnz hwin
  exact webhookCore_dup _ _ _ _ _ _ hdup

/-- C2 witness: the duplicate behaviour at a concrete pair of deliveries of evt_1 at times 1000 and 2000. -/
theorem C2_witness :
    passesTransport stripeReqExample ∧
    isDup [] "evt_1" 1000 = false ∧
    ((2000 : Int) - 1000 < WEBHOOK_IDEMPOTENCY_WINDOW) ∧
    webhookPost ((webhookPost [] stripeReqExample 1000 (fun _ => true)).2.1)
        stripeReqExample 2000 (fun _ => false)
      = (duplicateResp, (webhookPost [] stripeReqExample 1000 (fun _ => true)).2.1,
         [WebhookEff.sigVerify, WebhookEff.dupCheck "evt_1"]) := by
  have hp : passesTransport stripeReqExample :=
    ⟨rfl, ⟨_, rfl, by decide⟩, ⟨_, rfl, by decide⟩, ⟨_, rfl⟩, ⟨_, rfl, by decide⟩⟩
  have hfresh : isDup [] "evt_1" 1000 = false := rfl
  have hwin : (2000 : Int) - 1000 < WEBHOOK_IDEMPOTENCY_WINDOW := by
    norm_num [WEBHOOK_IDEMPOTENCY_WINDOW]
  exact ⟨hp, hfresh, hwin,
    C2_duplicate_no_side_effects [] stripeReqExample stripeReqExample
      stripeEventExample stripeEventExample 1000 2000 (fun _ => true) (fun _ => false)
      hp rfl hp rfl rfl hfresh (by norm_num) hwin⟩

/-- C3 counterexample: a handler failing twice then succeeding is attempted exactly 3 times, but the two backoff delays are 2000 ms and 4000 ms, not the claimed 1000 ms and 2000 ms. -/
theorem C3_counterexample :
    (runWebhookRetries (fun k => decide (2 ≤ k)) "evt_1" "invoice.finalized" 5).2.1 = 3 ∧
    (runWebhookRetries (fun k => decide (2 ≤ k)) "evt_1" "invoice.finalized" 5).2.2
      = [2000, 4000] ∧
    (runWebhookRetries (fun k => decide (2 ≤ k)) "evt_1" "invoice.finalized" 5).2.2
      ≠ [1000, 2000] := by
  decide

/-- C3 (amended): with failures on the first two attempts and success on the third, the retry controller makes exactly 3 attempts with backoff delays of 2s then 4s (1s times 2^k before the k-th retry, about 6s in total), and no run ever makes more than 3 attempts. -/
theorem C3_retry_amended :
    (∀ (s : Nat → Bool) (eid ety : String) (pt : Int),
        s 0 = false → s 1 = false → s 2 = true →
        runWebhookRetries s eid ety pt = (processedResp eid ety pt, 3, [2000, 4000])) ∧
    (∀ (s : Nat → Bool) (eid ety : String) (pt : Int),
        (runWebhookRetries s eid ety pt).2.1 ≤ 3) := by
  constructor
  · intro s eid ety pt h0 h1 h2
    simp [runWebhookRetries, MAX_RETRY_ATTEMPTS, retryFrom, h0, h1, h2, retryDelayMs]
  · intro s eid ety pt
    exact retryFrom_attempts_le s eid ety pt MAX_RETRY_ATTEMPTS 0

/-- C3 witness: the amended retry behaviour at a concrete fail-fail-succeed schedule. -/
theorem C3_witness :
    ((fun k => decide (2 ≤ k)) 0 = false) ∧
    ((fun k => decide (2 ≤ k)) 1 = false) ∧
    ((fun k => decide (2 ≤ k)) 2 = true) ∧
    runWebhookRetries (fun k => decide (2 ≤ k)) "evt_2" "customer.created" 9
      = (processedResp "evt_2" "customer.created" 9, 3, [2000, 4000]) :=
  ⟨rfl, rfl, rfl, C3_retry_amended.1 _ "evt_2" "customer.created" 9 rfl rfl rfl⟩

/-- C4 counterexample: on a uniqueness violation the insert is skipped and the just-computed rows are returned, which differ from the previously stored rows of that day (stored mrr value 5, returned mrr value 7). -/
theorem C4_counterexample :
    insertConflict c4dbExample (buildMetricRows "ws1" 3600000 7 0 0 0) = true ∧
    storeMetrics c4dbExample (buildMetricRows "ws1" 3600000 7 0 0 0) false
      = (c4dbExample, Except.ok (buildMetricRows "ws1" 3600000 7 0 0 0)) ∧
    Except.ok c4dbExample
      ≠ (storeMetrics c4dbExample (buildMetricRows "ws1" 3600000 7 0 0 0) false).2 := by
  have hc : insertConflict c4dbExample (buildMetricRows "ws1" 3600000 7 0 0 0) = true := by
    decide
  have hs : storeMetrics c4dbExample (buildMetricRows "ws1" 3600000 7 0 0 0) false
      = (c4dbExample, Except.ok (buildMetricRows "ws1" 3600000 7 0 0 0)) := by
    simp [storeMetrics, hc]
  refine ⟨hc, hs, ?_⟩
  rw [hs]
  simp [c4dbExample, buildMetricRows]

/-- C4 (amended): a snapshot insert that hits the uniqueness constraint raises no error; the database is left unchanged and the metrics the recalculation just computed are returned (not the previously stored values). -/
theorem C4_amended (db rows : List MetricRow) (h : insertConflict db rows = true) :
    storeMetrics db rows false = (db, Except.ok rows) := by
  simp [storeMetrics, h]

/-- C4 witness: the amended conflict behaviour at a concrete database and row set. -/
theorem C4_witness :
    insertConflict c4dbExample (buildMetricRows "ws1" 7200000 9 0 0 0) = true ∧
    storeMetrics c4dbExample (buildMetricRows "ws1" 7200000 9 0 0 0) false
      = (c4dbExample, Except.ok (buildMetricRows "ws1" 7200000 9 0 0 0)) :=
  ⟨by decide, C4_amended _ _ (by decide)⟩

/-- C5: LTV equals MRR divided by churn rate clamped to [0, 1e7] when 0 < churnRate < 1, and 0 otherwise; every result lies in [0, 1e7]; MRR 100 with churn 0.05 gives 2000 and churn 0 gives 0. -/
theorem C5_ltv :
    (∀ m c : ℚ, 0 < c → c < 1 → calcLTV m c = max 0 (min (m / c) 10000000)) ∧
    (∀ m c : ℚ, ¬ (0 < c ∧ c < 1) → calcLTV m c = 0) ∧
    (∀ m c : ℚ, 0 ≤ calcLTV m c ∧ calcLTV m c ≤ 10000000) ∧
    calcLTV 100 (5 / 100) = 2000 ∧ (∀ m : ℚ, calcLTV m 0 = 0) := by
  refine ⟨?_, ?_, ?_, ?_, ?_⟩
  · intro m c hc0 hc1
    simp [calcLTV, hc0, hc1]
  · intro m c h
    simp [calcLTV, h]
  · intro m c
    unfold calcLTV
    by_cases h : 0 < c ∧ c < 1
    · rw [if_pos h]
      constructor
      · exact le_max_left 0 _
      · exact max_le (by norm_num) (min_le_right _ _)
    · rw [if_neg h]
      norm_num
  · norm_num [calcLTV]
  · intro m
    simp [calcLTV]

/-- C5 witness: the LTV branches at churn rate 1/2 and at churn rate 2. -/
theorem C5_witness :
    ((0 : ℚ) < 1 / 2) ∧ ((1 : ℚ) / 2 < 1) ∧
    calcLTV 7 (1 / 2) = max 0 (min ((7 : ℚ) / (1 / 2)) 10000000) ∧
    ¬ ((0 : ℚ) < 2 ∧ (2 : ℚ) < 1) ∧ calcLTV 3 2 = 0 :=
  ⟨by norm_num, by norm_num,
   C5_ltv.1 7 (1 / 2) (by norm_num) (by norm_num),
   by norm_num,
   C5_ltv.2.1 3 2 (by norm_num)⟩

/-- C6: the stored MRR always lies in [0, 1e8]; a computed MRR of -50 is stored as 0 with the warning flagged, and any computed value above 1e8 is stored as exactly 1e8. -/
theorem C6_mrr_clamping :
    (∀ x : ℚ, 0 ≤ storedMRR x ∧ storedMRR x ≤ 100000000) ∧
    storedMRR (-50) = 0 ∧ mrrWarningLogged (-50) = true ∧
    (∀ x : ℚ, 100000000 < x → storedMRR x = 100000000) := by
  refine ⟨?_, ?_, rfl, ?_⟩
  · intro x
    obtain ⟨hl, hr⟩ := clampMRR_mem x
    exact ⟨round2_nonneg _ hl, round2_le_hundred_million _ hr⟩
  · norm_num [storedMRR, clampMRR, round2]
  · intro x hx
    unfold storedMRR clampMRR round2
    rw [if_neg (by linarith), min_eq_right (by linarith)]
    rw [show ((100000000 : ℚ) * 100) = ((10000000000 : ℚ)) by norm_num]
    rw [show round ((10000000000 : ℚ)) = 10000000000 from by
      exact_mod_cast round_ofNat 10000000000]
    norm_num

/-- C6 witness: clamping of the concrete value 100000001. -/
theorem C6_witness :
    ((100000000 : ℚ) < 100000001) ∧ storedMRR 100000001 = 100000000 :=
  ⟨by norm_num, C6_mrr_clamping.2.2.2 100000001 (by norm_num)⟩

/-- C7 counterexample: with an existing snapshot of the same calendar day recorded more than 5 minutes earlier, two trigger requests 3 minutes apart each pass the rate-limit check and each perform a full recalculation (the first insert is skipped by the day-uniqueness conflict, so the window stays clear). -/
theorem C7_counterexample :
    ((40180000 : Int) - 40000000 < RATE_LIMIT_WINDOW_MS) ∧
    (metricsPost c4dbExample "ws1" 40000000 9 1 2 3 false).2.2 = true ∧
    (metricsPost ((metricsPost c4dbExample "ws1" 40000000 9 1 2 3 false).2.1)
        "ws1" 40180000 9 1 2 3 false).2.2 = true ∧
    (metricsPost ((metricsPost c4dbExample "ws1" 40000000 9 1 2 3 false).2.1)
        "ws1" 40180000 9 1 2 3 false).1
      = MetricsPostResp.success (buildMetricRows "ws1" 40180000 9 1 2 3) := by
  have hdb : (metricsPost c4dbExample "ws1" 40000000 9 1 2 3 false).2.1 = c4dbExample := by
    norm_num [metricsPost, c4dbExample, rateLimitRecent, latestRecordedAt,
      RATE_LIMIT_WINDOW_MS, buildMetricRows, storeMetrics, insertConflict,
      rowConflicts, dayOf]
  refine ⟨by norm_num [RATE_LIMIT_WINDOW_MS], ?_, ?_, ?_⟩
  · norm_num [metricsPost, c4dbExample, rateLimitRecent, latestRecordedAt,
      RATE_LIMIT_WINDOW_MS, buildMetricRows, storeMetrics, insertConflict,
      rowConflicts, dayOf]
  · rw [hdb]
    norm_num [metricsPost, c4dbExample, rateLimitRecent, latestRecordedAt,
      RATE_LIMIT_WINDOW_MS, buildMetricRows, storeMetrics, insertConflict,
      rowConflicts, dayOf]
  · rw [hdb]
    norm_num [metricsPost, c4dbExample, rateLimitRecent, latestRecordedAt,
      RATE_LIMIT_WINDOW_MS, buildMetricRows, storeMetrics, insertConflict,
      rowConflicts, dayOf]

/-- C7 (amended): when the first request recalculates and its snapshots are actually stored (no same-day uniqueness conflict), a second request within the 5-minute window performs no recomputation and returns the calculated-recently response carrying the first calculation's timestamp. -/
theorem C7_amended (db : List MetricRow) (wsId : String) (t1 t2 : Int)
    (m c l a m2 c2 l2 a2 : ℚ)
    (h1 : rateLimitRecent db wsId t1 = none)
    (hstore : insertConflict db (buildMetricRows wsId t1 m c l a) = false)
    (hle : t1 ≤ t2) (hwin : t2 - t1 ≤ RATE_LIMIT_WINDOW_MS) :
    (metricsPost db wsId t1 m c l a false).2.2 = true ∧
    metricsPost ((metricsPost db wsId t1 m c l a false).2.1) wsId t2 m2 c2 l2 a2 false
      = (MetricsPostResp.calculatedRecently t1,
         (metricsPost db wsId t1 m c l a false).2.1, false) := by
  have hfirst : metricsPost db wsId t1 m c l a false
      = (MetricsPostResp.success (buildMetricRows wsId t1 m c l a),
         db ++ buildMetricRows wsId t1 m c l a, true) := by
    unfold metricsPost
    rw [h1]
    simp [storeMetrics, hstore]
  have hrl : rateLimitRecent (db ++ buildMetricRows wsId t1 m c l a) wsId t2
      = some t1 := by
    unfold rateLimitRecent
    rw [List.filter_append]
    have hdb : db.filter (fun r => r.workspace_id == wsId &&
        decide (t2 - RATE_LIMIT_WINDOW_MS ≤ r.recorded_at)) = [] := by
      rw [List.filter_eq_nil_iff]
      intro r hr
      have hnil := (rateLimitRecent_none_iff db wsId t1).mp h1
      have hnot := List.filter_eq_nil_iff.mp hnil r hr
      simp only [Bool.and_eq_true, beq_iff_eq, decide_eq_true_eq, not_and] at hnot ⊢
      intro heq hge
      exact hnot heq (by omega)
    rw [hdb]
    have hrows : (buildMetricRows wsId t1 m c l a).filter
        (fun r => r.workspace_id == wsId &&
          decide (t2 - RATE_LIMIT_WINDOW_MS ≤ r.recorded_at))
        = buildMetricRows wsId t1 m c l a := by
      have ht : t2 ≤ t1 + RATE_LIMIT_WINDOW_MS := by omega
      simp [buildMetricRows, List.filter_cons, ht]
    rw [hrows]
    simp [latestRecordedAt, buildMetricRows]
  constructor
  · rw [hfirst]
  · rw [hfirst]
    unfold metricsPost
    rw [hrl]

/-- C7 witness: the amended rate-limit behaviour on an empty database with requests at times 1000 and 200000. -/
theorem C7_witness :
    rateLimitRecent [] "ws1" 1000 = none ∧
    insertConflict [] (buildMetricRows "ws1" 1000 1 2 3 4) = false ∧
    ((1000 : Int) ≤ 200000) ∧ ((200000 : Int) - 1000 ≤ RATE_LIMIT_WINDOW_MS) ∧
    (metricsPost [] "ws1" 1000 1 2 3 4 false).2.2 = true ∧
    metricsPost ((metricsPost [] "ws1" 1000 1 2 3 4 false).2.1) "ws1" 200000 5 6 7 8 false
      = (MetricsPostResp.calculatedRecently 1000,
         (metricsPost [] "ws1" 1000 1 2 3 4 false).2.1, false) := by
  have h1 : rateLimitRecent [] "ws1" 1000 = none := rfl
  have h2 : insertConflict [] (buildMetricRows "ws1" 1000 1 2 3 4) = false := by decide
  have h3 : (1000 : Int) ≤ 200000 := by norm_num
  have h4 : (200000 : Int) - 1000 ≤ RATE_LIMIT_WINDOW_MS := by
    norm_num [RATE_LIMIT_WINDOW_MS]
  obtain ⟨w1, w2⟩ := C7_amended [] "ws1" 1000 200000 1 2 3 4 5 6 7 8 h1 h2 h3 h4
  exact ⟨h1, h2, h3, h4, w1, w2⟩

/-- C8 counterexample: a duplicate delivery's 200 body is exactly received plus status duplicate; it contains neither an eventId nor an eventType field, contradicting the claim that both appear in every processed-or-duplicate 200 body. -/
theorem C8_counterexample :
    (webhookPost dupCacheExample stripeReqExample 2000 (fun _ => true)).1.status = 200 ∧
    ("status", Jv.s "duplicate")
      ∈ (webhookPost dupCacheExample stripeReqExample 2000 (fun _ => true)).1.fields ∧
    ("received", Jv.b true)
      ∈ (webhookPost dupCacheExample stripeReqExample 2000 (fun _ => true)).1.fields ∧
    "eventId" ∉
      ((webhookPost dupCacheExample stripeReqExample 2000 (fun _ => true)).1.fields.map
        Prod.fst) ∧
    "eventType" ∉
      ((webhookPost dupCacheExample stripeReqExample 2000 (fun _ => true)).1.fields.map
        Prod.fst) := by
  decide

/-- C8 (amended): a processed delivery's 200 body carries received true, eventId and eventType; a duplicate delivery's 200 body carries received true and status duplicate but no eventId or eventType; every 200 response of the endpoint is one of the duplicate, processed, or processing-failed bodies. -/
theorem C8_response_fields :
    (∀ (eventId eventType : String) (procTime : Int),
        (processedResp eventId eventType procTime).status = 200 ∧
        ("received", Jv.b true) ∈ (processedResp eventId eventType procTime).fields ∧
        ("eventId", Jv.s eventId) ∈ (processedResp eventId eventType procTime).fields ∧
        ("eventType", Jv.s eventType) ∈ (processedResp eventId eventType procTime).fields) ∧
    (duplicateResp.status = 200 ∧
      ("received", Jv.b true) ∈ duplicateResp.fields ∧
      ("status", Jv.s "duplicate") ∈ duplicateResp.fields ∧
      "eventId" ∉ duplicateResp.fields.map Prod.fst ∧
      "eventType" ∉ duplicateResp.fields.map Prod.fst) ∧
    (∀ (cache : List (String × Int)) (r : WebhookReq) (now : Int) (s : Nat → Bool),
        (webhookPost cache r now s).1.status = 200 →
        (webhookPost cache r now s).1 = duplicateResp ∨
        (∃ eid ety pt, (webhookPost cache r now s).1 = processedResp eid ety pt) ∨
        (∃ eid, (webhookPost cache r now s).1 = processingFailedResp eid)) := by
  refine ⟨?_, ?_, webhookPost_status200⟩
  · intro eid ety pt
    simp [processedResp]
  · refine ⟨rfl, by simp [duplicateResp], by simp [duplicateResp], ?_, ?_⟩
    · simp [duplicateResp]
    · simp [duplicateResp]

/-- C8 witness: classification of a concrete 200 response (and a 401 for contrast). -/
theorem C8_witness :
    (webhookPost dupCacheExample badUAReq 2000 (fun _ => true)).1.status = 401 ∧
    (webhookPost [] stripeReqExample 3000 (fun _ => true)).1.status = 200 ∧
    ((webhookPost [] stripeReqExample 3000 (fun _ => true)).1 = duplicateResp ∨
      (∃ eid ety pt, (webhookPost [] stripeReqExample 3000 (fun _ => true)).1
          = processedResp eid ety pt) ∨
      (∃ eid, (webhookPost [] stripeReqExample 3000 (fun _ => true)).1
          = processingFailedResp eid)) :=
  ⟨by decide, by decide,
   C8_response_fields.2.2 [] stripeReqExample 3000 (fun _ => true) (by decide)⟩

/-- C9: whenever handler attempts occur in a delivery's trace, the trace is exactly signature verification, duplicate lookup and cache record followed by the attempts, so the event id is recorded before any processing; consequently a delivery that fails all retries still gets the duplicate answer with no handler run when redelivered within the 24-hour window. -/
theorem C9_record_before_processing :
    (∀ (cache : List (String × Int)) (r : WebhookReq) (now : Int)
        (s : Nat → Bool) (id : String),
        WebhookEff.handlerAttempt id ∈ (webhookPost cache r now s).2.2 →
        ∃ n, 0 < n ∧ (webhookPost cache r now s).2.2
          = [WebhookEff.sigVerify, WebhookEff.dupCheck id, WebhookEff.record id]
              ++ List.replicate n (WebhookEff.handlerAttempt id)) ∧
    (∀ (cache : List (String × Int)) (r1 r2 : WebhookReq) (ev1 ev2 : StripeEvent)
        (now0 now1 : Int) (s2 : Nat → Bool),
        passesTransport r1 → r1.event = some ev1 →
        passesTransport r2 → r2.event = some ev2 → ev2.id = ev1.id →
        isDup cache ev1.id now0 = false → now0 ≠ 0 →
        now1 - now0 < WEBHOOK_IDEMPOTENCY_WINDOW →
        ev1.dataObjectPresent = true → r1.elapsed ≤ MAX_PROCESSING_TIME →
        (webhookPost cache r1 now0 (fun _ => false)).1 = processingFailedResp ev1.id ∧
        (webhookPost ((webhookPost cache r1 now0 (fun _ => false)).2.1) r2 now1 s2).1
          = duplicateResp ∧
        WebhookEff.handlerAttempt ev2.id ∉
          (webhookPost ((webhookPost cache r1 now0 (fun _ => false)).2.1) r2 now1 s2).2.2) := by
  constructor
  · intro cache r now s id hmem
    rcases webhookPost_trace_shapes cache r now s with h | h | ⟨i, h⟩ | ⟨i, h⟩ | ⟨i, n, hn, h⟩
    · rw [h] at hmem; simp at hmem
    · rw [h] at hmem; simp at hmem
    · rw [h] at hmem; simp at hmem
    · rw [h] at hmem; simp at hmem
    · rw [h] at hmem
      simp only [List.mem_append, List.mem_replicate] at hmem
      rcases hmem with hmem | ⟨-, heq⟩
      · simp at hmem
      · have hid : id = i := by injection heq
        subst hid
        exact ⟨n, hn, h⟩
  · intro cache r1 r2 ev1 ev2 now0 now1 s2 h1 hev1 h2 hev2 hid hfresh hnz hwin hdata helap
    have hfail : webhookPost cache r1 now0 (fun _ => false)
        = (processingFailedResp ev1.id, recordAndCleanup cache ev1.id now0,
           [WebhookEff.sigVerify, WebhookEff.dupCheck ev1.id, WebhookEff.record ev1.id]
             ++ List.replicate 3 (WebhookEff.handlerAttempt ev1.id)) := by
      rw [webhookPost_transport cache r1 now0 (fun _ => false) ev1 h1 hev1]
      unfold webhookCore
      rw [hfresh]
      simp only [Bool.false_eq_true, if_false]
      rw [if_neg (by simp [hdata]), if_neg (not_lt.mpr helap)]
      rw [runWebhookRetries_allFail]
    have hsecond : webhookPost ((webhookPost cache r1 now0 (fun _ => false)).2.1) r2 now1 s2
        = (duplicateResp, (webhookPost cache r1 now0 (fun _ => false)).2.1,
           [WebhookEff.sigVerify, WebhookEff.dupCheck ev2.id]) := by
      rw [webhookPost_transport _ r2 now1 s2 ev2 h2 hev2]
      have hdup : isDup ((webhookPost cache r1 now0 (fun _ => false)).2.1) ev2.id now1
          = true := by
        rw [hfail, hid]
        exact isDup_after_record cache ev1.id now0 now1 hnz hwin
      exact webhookCore_dup _ _ _ _ _ _ hdup
    refine ⟨by rw [hfail], by rw [hsecond], ?_⟩
    rw [hsecond]
    simp

/-- C9 witness: a concrete delivery of evt_1 failing all retries at time 1000, redelivered at time 2000. -/
theorem C9_witness :
    passesTransport stripeReqExample ∧
    isDup [] "evt_1" 1000 = false ∧
    stripeEventExample.dataObjectPresent = true ∧
    stripeReqExample.elapsed ≤ MAX_PROCESSING_TIME ∧
    ((2000 : Int) - 1000 < WEBHOOK_IDEMPOTENCY_WINDOW) ∧
    (webhookPost [] stripeReqExample 1000 (fun _ => false)).1
      = processingFailedResp "evt_1" ∧
    (webhookPost ((webhookPost [] stripeReqExample 1000 (fun _ => false)).2.1)
        stripeReqExample 2000 (fun _ => true)).1 = duplicateResp ∧
    WebhookEff.handlerAttempt "evt_1" ∉
      (webhookPost ((webhookPost [] stripeReqExample 1000 (fun _ => false)).2.1)
        stripeReqExample 2000 (fun _ => true)).2.2 := by
  have hp : passesTransport stripeReqExample :=
    ⟨rfl, ⟨_, rfl, by decide⟩, ⟨_, rfl, by decide⟩, ⟨_, rfl⟩, ⟨_, rfl, by decide⟩⟩
  have hfresh : isDup [] "evt_1" 1000 = false := rfl
  have hwin : (2000 : Int) - 1000 < WEBHOOK_IDEMPOTENCY_WINDOW := by
    norm_num [WEBHOOK_IDEMPOTENCY_WINDOW]
  have helap : stripeReqExample.elapsed ≤ MAX_PROCESSING_TIME := by
    norm_num [stripeReqExample, MAX_PROCESSING_TIME]
  obtain ⟨w1, w2, w3⟩ :=
    C9_record_before_processing.2 [] stripeReqExample stripeReqExample
      stripeEventExample stripeEventExample 1000 2000 (fun _ => true)
      hp rfl hp rfl rfl hfresh (by norm_num) hwin rfl helap
  exact ⟨hp, hfresh, rfl, helap, hwin, w1, w2, w3⟩

/-- C10: a POST whose user agent is absent or lacks the substring Stripe/ is answered 401 with the cache untouched and an empty effect trace: no signature verification, idempotency access, or processing happens. -/
theorem C10_user_agent_gate (cache : List (String × Int)) (r : WebhookReq)
    (now : Int) (s : Nat → Bool) (hm : r.method = "POST") (hua : uaRejected r) :
    webhookPost cache r now s = (unauthorizedResp, cache, []) ∧
    unauthorizedResp.status = 401 := by
  refine ⟨?_, rfl⟩
  unfold webhookPost
  rw [if_neg (by simp [hm])]
  unfold uaRejected at hua
  cases h : r.userAgent with
  | none => rfl
  | some ua =>
    have hua2 : strIncludes ua "Stripe/" = false := by
      rw [h] at hua
      exact hua
    simp [hua2]

/-- C10 witness: the 401 gate at a concrete request with user agent curl/8.5. -/
theorem C10_witness :
    badUAReq.method = "POST" ∧ uaRejected badUAReq ∧
    webhookPost [("evt_7", 42)] badUAReq 50 (fun _ => true)
      = (unauthorizedResp, [("evt_7", 42)], []) := by
  have hua : uaRejected badUAReq := by
    unfold uaRejected badUAReq
    decide
  exact ⟨rfl, hua,
    (C10_user_agent_gate [("evt_7", 42)] badUAReq 50 (fun _ => true) rfl hua).1⟩

end MetricsPulse
